import Mathlib

/-!
Verification of the Soil Tension Curve Calculator (`SoilTentionCurve_2.py`)
against its natural-language specification.

The mathematically meaningful parts of the program are the three retention
models `VG`, `Campbell`, `BC`, the significance-symbol mapping `sig_symbol`,
the column-extraction routine `return_column`, and the fit invocation
`SoilTensionCalculator.curve` (which delegates the optimisation to
`scipy.optimize.curve_fit` and writes the fitted parameters and covariance
to a file).  We embed these shallowly: floating-point arithmetic becomes
real arithmetic, `numpy`'s element-wise `where` becomes a pointwise `if`,
and the Python `**` operator on nonnegative operands becomes `Real.rpow`.
-/

namespace SoilTension

/-- Van Genuchten model (`VG`, source lines 36-39):
`se = 1 / ((1 + (alpha*x)**n) ** (1 - 1/n)); return se*(qs-qr) + qr`. -/
noncomputable def VG (x qs qr alpha n : ℝ) : ℝ :=
  let se := 1 / ((1 + (alpha * x) ^ n) ^ (1 - 1 / n))
  se * (qs - qr) + qr

/-- Campbell model (`Campbell`, source lines 42-44):
`np.where(x <= he, qs, qs * (x / he) ** (-1.0 / b))`, read pointwise. -/
noncomputable def Campbell (x qs he b : ℝ) : ℝ :=
  if x ≤ he then qs else qs * (x / he) ^ (-1 / b)

/-- Brooks & Corey model (`BC`, source lines 47-53):
`np.where(x <= sib, qs, qr + (qs - qr) * (x / sib) ** (-lamda))`, pointwise. -/
noncomputable def BC (x qs qr lamda sib : ℝ) : ℝ :=
  if x ≤ sib then qs else qr + (qs - qr) * (x / sib) ^ (-lamda)

/-- Significance-symbol mapping (`sig_symbol`, source lines 56-65). -/
noncomputable def sig_symbol (p : ℝ) : String :=
  if p > 0.05 then "ns"
  else if p > 0.01 then "*"
  else if p > 0.001 then "**"
  else "***"

/-- Python's `str.isdigit` on the strings occurring here: nonempty and every
character a decimal digit. -/
def pyIsDigit (cs : List Char) : Bool :=
  !cs.isEmpty && cs.all Char.isDigit

/-- Python's `s.replace('.', '', 1)`: remove the first occurrence of `'.'`. -/
def removeFirstDot : List Char → List Char
  | [] => []
  | c :: cs => if c = '.' then cs else c :: removeFirstDot cs

/-- The row filter of `return_column` (source line 280):
`row[idx].replace('.', '', 1).isdigit()`. -/
def keepEntry (s : String) : Bool :=
  pyIsDigit (removeFirstDot s.data)

/-- Column extraction (`SoilTensionCalculator.return_column`, source lines
276-281): from the rows after the header, keep the entries of column `idx`
that pass `keepEntry`, independently of every other column.  The Python code
converts each kept entry with `float`; that conversion is one-to-one per
entry, so we keep the entries as strings (the claims settled against this
definition concern which rows survive, not the numeric values). -/
def return_column (data : List (List String)) (idx : Nat) : List String :=
  ((data.drop 1).filter fun row => keepEntry (row.getD idx "")).map
    fun row => row.getD idx ""

/-- The components `curve` writes to the results file on a successful fit
(source line 329: `fout.write(f"Fitted Params: {popt}\nCovariance:\n{pcov}\n")`),
together with `scipy.optimize.curve_fit`'s return value `(popt, pcov)`
(source lines 301-320): the fitted parameters and the covariance matrix. -/
def fit_result_components : List String :=
  ["parameters", "covariance"]

/-- The Fit Result fields prescribed by the spec (§3, Fit Result). -/
def spec_fit_result_fields : List String :=
  ["parameters", "covariance", "standard_errors", "t_stats", "p_values",
    "significance_symbols", "residual_sum_of_squares", "degrees_of_freedom",
    "iterations", "converged"]

/-- Modelled from the spec: the error taxonomy of the fitting engine (§7).
The repository delegates the optimisation to `scipy.optimize.curve_fit`, so
the Levenberg-Marquardt core and its typed errors are not in the source;
only `ModelDomainError` is needed for the claims settled here. -/
inductive FitError where
  | modelDomainError
  deriving DecidableEq

/-- Modelled from the spec: the guarded model evaluation of the
Residual/Jacobian Evaluator for the Campbell model (§4.1 domain-validity
predicate `he > 0`, `b ≠ 0`; §4.2/§7: an evaluation at an invalid iterate is
reported as `ModelDomainError`, a typed outcome handled by the optimizer as a
step rejection, never an unhandled numeric exception).  Missing from the
source: the repository delegates fitting to `scipy.optimize.curve_fit`. -/
noncomputable def evalCampbellGuarded (x qs he b : ℝ) : Except FitError ℝ :=
  if 0 < he ∧ b ≠ 0 then .ok (Campbell x qs he b)
  else .error .modelDomainError

end SoilTension

namespace SoilTension

/-- C1: for every tension value `x` (tensions are nonnegative) and parameters
with `alpha > 0` and `n > 1`, `VG` returns `Se*(qs-qr)+qr` where
`Se = (1+(alpha*x)^n)^(-(1-1/n))` — the code's reciprocal form equals the
spec's negative-exponent form of effective saturation. -/
theorem VG_eq_spec_formula (x qs qr alpha n : ℝ)
    (hx : 0 ≤ x) (halpha : 0 < alpha) (hn : 1 < n) :
    VG x qs qr alpha n =
      (1 + (alpha * x) ^ n) ^ (-(1 - 1 / n)) * (qs - qr) + qr := by
  have hb : (0 : ℝ) ≤ 1 + (alpha * x) ^ n := by
    have := Real.rpow_nonneg (mul_nonneg halpha.le hx) n
    linarith
  unfold VG
  rw [Real.rpow_neg hb, one_div]

/-- Witness for `VG_eq_spec_formula` at `x = 1`, `(qs,qr,alpha,n) = (0.5,0.2,0.01,2)`. -/
theorem VG_eq_spec_formula_witness :
    ((0 : ℝ) ≤ 1 ∧ (0 : ℝ) < 0.01 ∧ (1 : ℝ) < 2) ∧
      VG 1 0.5 0.2 0.01 2 =
        (1 + ((0.01 : ℝ) * 1) ^ (2 : ℝ)) ^ (-(1 - 1 / (2 : ℝ))) * (0.5 - 0.2) + 0.2 :=
  ⟨⟨by norm_num, by norm_num, by norm_num⟩,
    VG_eq_spec_formula 1 0.5 0.2 0.01 2 (by norm_num) (by norm_num) (by norm_num)⟩

/-- C2: with `he > 0` and `b ≠ 0`, `Campbell` returns `qs` when `x ≤ he` and
`qs*(x/he)^(-1/b)` when `x > he`; at the branch point `x = he` it returns `qs`
(closed interval on the saturated side). -/
theorem Campbell_piecewise (x qs he b : ℝ) (hhe : 0 < he) (hb : b ≠ 0) :
    (x ≤ he → Campbell x qs he b = qs) ∧
      (he < x → Campbell x qs he b = qs * (x / he) ^ (-1 / b)) ∧
      Campbell he qs he b = qs := by
  refine ⟨fun h => ?_, fun h => ?_, ?_⟩
  · simp [Campbell, h]
  · rw [Campbell, if_neg (not_le.mpr h)]
  · simp [Campbell]

/-- Witness for `Campbell_piecewise` at `x = 2`, `(qs,he,b) = (0.5,1,4)`. -/
theorem Campbell_piecewise_witness :
    ((0 : ℝ) < 1 ∧ (4 : ℝ) ≠ 0) ∧
      (((2 : ℝ) ≤ 1 → Campbell 2 0.5 1 4 = 0.5) ∧
        ((1 : ℝ) < 2 → Campbell 2 0.5 1 4 = 0.5 * ((2 : ℝ) / 1) ^ (-1 / (4 : ℝ))) ∧
        Campbell 1 0.5 1 4 = 0.5) :=
  ⟨⟨by norm_num, by norm_num⟩, Campbell_piecewise 2 0.5 1 4 (by norm_num) (by norm_num)⟩

/-- C3: with `lamda > 0` and `sib > 0`, `BC` returns `qs` when `x ≤ sib` and
`qr + (qs-qr)*(x/sib)^(-lamda)` when `x > sib`; at `x = sib` it returns `qs`. -/
theorem BC_piecewise (x qs qr lamda sib : ℝ) (hlam : 0 < lamda) (hsib : 0 < sib) :
    (x ≤ sib → BC x qs qr lamda sib = qs) ∧
      (sib < x → BC x qs qr lamda sib = qr + (qs - qr) * (x / sib) ^ (-lamda)) ∧
      BC sib qs qr lamda sib = qs := by
  refine ⟨fun h => ?_, fun h => ?_, ?_⟩
  · simp [BC, h]
  · rw [BC, if_neg (not_le.mpr h)]
  · simp [BC]

/-- Witness for `BC_piecewise` at `x = 20`, `(qs,qr,lamda,sib) = (0.5,0.2,1,15)`. -/
theorem BC_piecewise_witness :
    ((0 : ℝ) < 1 ∧ (0 : ℝ) < 15) ∧
      (((20 : ℝ) ≤ 15 → BC 20 0.5 0.2 1 15 = 0.5) ∧
        ((15 : ℝ) < 20 →
          BC 20 0.5 0.2 1 15 = 0.2 + (0.5 - 0.2) * ((20 : ℝ) / 15) ^ (-(1 : ℝ))) ∧
        BC 15 0.5 0.2 1 15 = 0.5) :=
  ⟨⟨by norm_num, by norm_num⟩, BC_piecewise 20 0.5 0.2 1 15 (by norm_num) (by norm_num)⟩

/-- C4: `sig_symbol` maps `p > 0.05` to `"ns"`, `0.01 < p ≤ 0.05` to `"*"`,
`0.001 < p ≤ 0.01` to `"**"`, `p ≤ 0.001` to `"***"`; in particular
`p = 0.04` yields `"*"` and `p = 0.2` yields `"ns"`. -/
theorem sig_symbol_spec (p : ℝ) :
    (0.05 < p → sig_symbol p = "ns") ∧
      (0.01 < p ∧ p ≤ 0.05 → sig_symbol p = "*") ∧
      (0.001 < p ∧ p ≤ 0.01 → sig_symbol p = "**") ∧
      (p ≤ 0.001 → sig_symbol p = "***") ∧
      sig_symbol 0.04 = "*" ∧ sig_symbol 0.2 = "ns" := by
  refine ⟨fun h => ?_, fun h => ?_, fun h => ?_, fun h => ?_, ?_, ?_⟩
  · rw [sig_symbol, if_pos h]
  · rw [sig_symbol, if_neg (not_lt.mpr h.2), if_pos h.1]
  · have h5 : ¬ (0.05 : ℝ) < p := not_lt.mpr (h.2.trans (by norm_num))
    rw [sig_symbol, if_neg h5, if_neg (not_lt.mpr h.2), if_pos h.1]
  · have h5 : ¬ (0.05 : ℝ) < p := not_lt.mpr (h.trans (by norm_num))
    have h1 : ¬ (0.01 : ℝ) < p := not_lt.mpr (h.trans (by norm_num))
    rw [sig_symbol, if_neg h5, if_neg h1, if_neg (not_lt.mpr h)]
  · norm_num [sig_symbol]
  · norm_num [sig_symbol]

/-- Witness for `sig_symbol_spec` at `p = 0.2`. -/
theorem sig_symbol_spec_witness :
    (0.05 : ℝ) < 0.2 ∧ sig_symbol 0.2 = "ns" :=
  ⟨by norm_num, (sig_symbol_spec 0.2).1 (by norm_num)⟩

/-- C6: in the flat (saturated) region the piecewise models reproduce `qs`
exactly: `Campbell x qs he b = qs` for all `x ≤ he` and
`BC x qs qr lamda sib = qs` for all `x ≤ sib`. -/
theorem flat_region_eq_qs (qs qr he b lamda sib : ℝ)
    (hhe : 0 < he) (hb : b ≠ 0) (hlam : 0 < lamda) (hsib : 0 < sib) :
    (∀ x, x ≤ he → Campbell x qs he b = qs) ∧
      (∀ x, x ≤ sib → BC x qs qr lamda sib = qs) := by
  constructor
  · intro x hx; simp [Campbell, hx]
  · intro x hx; simp [BC, hx]

/-- Witness for `flat_region_eq_qs` with `(he,b,lamda,sib) = (1,4,1,15)` at `x = 0.5`. -/
theorem flat_region_eq_qs_witness :
    ((0 : ℝ) < 1 ∧ (4 : ℝ) ≠ 0 ∧ (0 : ℝ) < 1 ∧ (0 : ℝ) < 15) ∧
      Campbell 0.5 0.5 1 4 = 0.5 :=
  ⟨⟨by norm_num, by norm_num, by norm_num, by norm_num⟩,
    (flat_region_eq_qs 0.5 0.2 1 4 1 15 (by norm_num) (by norm_num) (by norm_num)
      (by norm_num)).1 0.5 (by norm_num)⟩

/-- C10: at zero tension the Van Genuchten model reproduces the saturated
water content: `VG 0 qs qr alpha n = qs` whenever the power term is defined
(`n ≠ 0`; at `n = 0` the code's `1 - 1.0/n` raises `ZeroDivisionError`). -/
theorem VG_at_zero (qs qr alpha n : ℝ) (hn : n ≠ 0) :
    VG 0 qs qr alpha n = qs := by
  unfold VG
  rw [mul_zero, Real.zero_rpow hn]
  norm_num

/-- Witness for `VG_at_zero` at `(qs,qr,alpha,n) = (0.5,0.2,0.01,2)`. -/
theorem VG_at_zero_witness :
    (2 : ℝ) ≠ 0 ∧ VG 0 0.5 0.2 0.01 2 = 0.5 :=
  ⟨by norm_num, VG_at_zero 0.5 0.2 0.01 2 (by norm_num)⟩

/-- C7: the Van Genuchten and Brooks & Corey predictions are non-increasing
in the tension: for `qs ≥ qr`, `alpha > 0`, `n > 1`, `lamda > 0`, `sib > 0`
and tensions `0 ≤ x1 ≤ x2`, the prediction at `x2` is at most the one at `x1`. -/
theorem VG_BC_antitone (qs qr alpha n lamda sib x1 x2 : ℝ)
    (hq : qr ≤ qs) (halpha : 0 < alpha) (hn : 1 < n)
    (hlam : 0 < lamda) (hsib : 0 < sib) (hx1 : 0 ≤ x1) (hx : x1 ≤ x2) :
    VG x2 qs qr alpha n ≤ VG x1 qs qr alpha n ∧
      BC x2 qs qr lamda sib ≤ BC x1 qs qr lamda sib := by
  have hqq : (0 : ℝ) ≤ qs - qr := by linarith
  constructor
  · have hax1 : 0 ≤ alpha * x1 := mul_nonneg halpha.le hx1
    have hax : alpha * x1 ≤ alpha * x2 :=
      mul_le_mul_of_nonneg_left hx halpha.le
    have hpow : (alpha * x1) ^ n ≤ (alpha * x2) ^ n :=
      Real.rpow_le_rpow hax1 hax (by linarith)
    have hpow1 : (0 : ℝ) ≤ (alpha * x1) ^ n := Real.rpow_nonneg hax1 n
    have he0 : (0 : ℝ) ≤ 1 - 1 / n := by
      have h1n : 1 / n < 1 := by
        rw [div_lt_one (by linarith)]; exact hn
      linarith
    have ha1 : (0 : ℝ) < 1 + (alpha * x1) ^ n := by linarith
    have hb : (1 + (alpha * x1) ^ n) ^ (1 - 1 / n) ≤
        (1 + (alpha * x2) ^ n) ^ (1 - 1 / n) :=
      Real.rpow_le_rpow ha1.le (by linarith) he0
    have hb1 : (0 : ℝ) < (1 + (alpha * x1) ^ n) ^ (1 - 1 / n) :=
      Real.rpow_pos_of_pos ha1 _
    have hse : 1 / (1 + (alpha * x2) ^ n) ^ (1 - 1 / n) ≤
        1 / (1 + (alpha * x1) ^ n) ^ (1 - 1 / n) :=
      one_div_le_one_div_of_le hb1 hb
    simp only [VG]
    exact add_le_add_right (mul_le_mul_of_nonneg_right hse hqq) qr
  · rcases le_or_lt x2 sib with h2 | h2
    · have h1 : x1 ≤ sib := hx.trans h2
      simp [BC, h1, h2]
    · have hx2pos : 0 < x2 := hsib.trans h2
      have ht2 : 1 ≤ x2 / sib := le_of_lt ((one_lt_div hsib).mpr h2)
      have hpow2le : (x2 / sib) ^ (-lamda) ≤ 1 :=
        Real.rpow_le_one_of_one_le_of_nonpos ht2 (by linarith)
      have hpow2nn : (0 : ℝ) ≤ (x2 / sib) ^ (-lamda) :=
        Real.rpow_nonneg (div_nonneg hx2pos.le hsib.le) _
      rcases le_or_lt x1 sib with h1 | h1
      · simp only [BC]
        rw [if_neg (not_le.mpr h2), if_pos h1]
        nlinarith
      · simp only [BC]
        rw [if_neg (not_le.mpr h2), if_neg (not_le.mpr h1)]
        have ht1 : 0 < x1 / sib := div_pos (hsib.trans h1) hsib
        have htle : x1 / sib ≤ x2 / sib :=
          (div_le_div_iff_of_pos_right hsib).mpr hx
        have hmono : (x2 / sib) ^ (-lamda) ≤ (x1 / sib) ^ (-lamda) :=
          Real.rpow_le_rpow_of_nonpos ht1 htle (by linarith)
        exact add_le_add_left (mul_le_mul_of_nonneg_left hmono hqq) qr

/-- Witness for `VG_BC_antitone` at `x1 = 0`, `x2 = 1`,
`(qs,qr,alpha,n,lamda,sib) = (0.5,0.2,0.01,2,1,15)`. -/
theorem VG_BC_antitone_witness :
    ((0.2 : ℝ) ≤ 0.5 ∧ (0 : ℝ) < 0.01 ∧ (1 : ℝ) < 2 ∧ (0 : ℝ) < 1 ∧
        (0 : ℝ) < 15 ∧ (0 : ℝ) ≤ 0 ∧ (0 : ℝ) ≤ 1) ∧
      (VG 1 0.5 0.2 0.01 2 ≤ VG 0 0.5 0.2 0.01 2 ∧
        BC 1 0.5 0.2 1 15 ≤ BC 0 0.5 0.2 1 15) :=
  ⟨⟨by norm_num, by norm_num, by norm_num, by norm_num, by norm_num,
      by norm_num, by norm_num⟩,
    VG_BC_antitone 0.5 0.2 0.01 2 1 15 0 1 (by norm_num) (by norm_num)
      (by norm_num) (by norm_num) (by norm_num) (by norm_num) (by norm_num)⟩

/-- C8: evaluating the Campbell model under the spec's domain guard with
`he = 0` (as happens at the initial guess of a fit started with `he = 0`)
yields the typed outcome `ModelDomainError`, for every tension and every
remaining parameter — never an unhandled numeric exception: the guarded
evaluator is a total function into `Except FitError ℝ`. -/
theorem campbell_he_zero_domain_error (x qs b : ℝ) :
    evalCampbellGuarded x qs 0 b = .error .modelDomainError := by
  rw [evalCampbellGuarded, if_neg]
  rintro ⟨h, -⟩
  exact lt_irrefl 0 h

/-- C9: `return_column` filters each column independently, keeping exactly
the entries that are digits with at most one decimal point and dropping
negatives, scientific notation, and blanks; consequently, on the concrete
table below (header plus two data rows, the second having water content
`"-0.3"`) the water-content column and the tension column passed to the fit
have different lengths, so the fit inputs are not guaranteed to be
equal-length aligned observation pairs. -/
theorem return_column_misaligns :
    keepEntry "0.5" = true ∧ keepEntry "10" = true ∧
      keepEntry "-0.3" = false ∧ keepEntry "1e5" = false ∧
      keepEntry "" = false ∧ keepEntry "1.2.3" = false ∧
      return_column [["wc", "tension"], ["0.5", "10"], ["-0.3", "20"]] 0 =
        ["0.5"] ∧
      return_column [["wc", "tension"], ["0.5", "10"], ["-0.3", "20"]] 1 =
        ["10", "20"] ∧
      (return_column [["wc", "tension"], ["0.5", "10"], ["-0.3", "20"]] 0).length ≠
        (return_column [["wc", "tension"], ["0.5", "10"], ["-0.3", "20"]] 1).length := by
  decide

/-- C5 (code evidence): on a successful fit, `curve` delivers only the fitted
parameters and the covariance matrix; the spec-prescribed statistics —
standard errors, t-statistics, p-values, and significance symbols — are
absent from the fit result (`sig_symbol` and the imported `t` distribution
are never used by `curve`). -/
theorem fit_result_lacks_significance :
    "significance_symbols" ∉ fit_result_components ∧
      "p_values" ∉ fit_result_components ∧
      "t_stats" ∉ fit_result_components ∧
      "standard_errors" ∉ fit_result_components ∧
      "significance_symbols" ∈ spec_fit_result_fields := by
  decide

end SoilTension
